import Mathlib

/-!
# Stepper control panel (`stepper/src/App.js`)

A shallow embedding of the `StepperController` React component: its five state
variables, the async functions `testConnection`, `apiCall` and `updateStatus`, the
motor actions, the speed field handler and the polling effect.

## How the JavaScript is read

* A function component is re-run on every render, so every function defined in
  its body is a closure over the state values *of that render*.  Each embedded
  function therefore takes two states: `env`, the values the closure reads
  (`isConnected`, `settings`), and `cur`, the live React state that the setters
  (`setIsConnected`, `setLoading`, ...) write to.  A handler invoked from the
  latest render has `env = cur`.
* `await fetch(...)` followed by `await response.json()` is one suspension point
  whose result is a `FetchOutcome` supplied from outside.
* Everything the functions do to the outside world (`alert`, `fetch`,
  `setTimeout`) is recorded, in program order, as a list of `Effect`s.
  `console.log` / `console.error` have no observable consequence here and are
  left out.
-/

namespace StepperController

/-! ## Values -/

/-- JSON scalars. Numbers are rationals: every finite double is one. -/
inductive Scalar where
  | null
  | bool (b : Bool)
  | num (n : Rat)
  | str (s : String)
  deriving DecidableEq, Repr

/-- A parsed JSON body. The component never looks inside a body, it only tests
it for truthiness and stores it, so one level of structure is kept. -/
inductive Json where
  | scalar (v : Scalar)
  | arr (items : List Scalar)
  | obj (fields : List (String × Scalar))
  deriving DecidableEq, Repr

/-- JavaScript `null`, which is also what `apiCall` returns on its failure paths. -/
def Json.null : Json := .scalar .null

/-- JavaScript truthiness (`if (x)`): `null`, `false`, `0` and the empty string are
falsy, every object and array is truthy. -/
def Json.truthy : Json → Bool
  | .scalar .null => false
  | .scalar (.bool b) => b
  | .scalar (.num n) => decide (n ≠ 0)
  | .scalar (.str s) => decide (s ≠ "")
  | .arr _ => true
  | .obj _ => true

/-- Line 6. -/
def ESP32_IP : String := "192.168.1.100"

/-- The template literal of line 64, `http://ESP32_IP/api/endpoint`. -/
def apiUrl (endpoint : String) : String := "http://" ++ ESP32_IP ++ "/api/" ++ endpoint

/-- The template literal of line 28. -/
def pingUrl : String := "http://" ++ ESP32_IP ++ "/api/ping"

/-! ## Component state (lines 8–21) -/

/-- The `settings` state variable. `speed` is always produced by `parseInt(..) || 0`
and `distance` by `parseFloat(..) || 0`, so neither is ever `NaN`. -/
structure Settings where
  speed : Int
  distance : Rat
  deriving DecidableEq, Repr

/-- The five `useState` variables. `lastPing = none` is JavaScript `null`. -/
structure State where
  isConnected : Bool
  status : Json
  settings : Settings
  loading : Bool
  lastPing : Option Int
  deriving DecidableEq, Repr

/-- The arguments of the five `useState` calls. -/
def initialState : State :=
  { isConnected := false
    status := .obj [("isRunning", .bool false), ("direction", .num 1), ("speed", .num 0),
                    ("position", .num 0), ("targetPosition", .num 0)]
    settings := { speed := 300, distance := 10 }
    loading := false
    lastPing := none }

/-! ## Requests, effects, network outcomes -/

/-- The two object literals passed as `data` to `apiCall` (lines 98–102 and 105–115). -/
inductive MoveData where
  | distance (distance : Rat) (speed : Int) (direction : Nat)
  | continuous (speed : Int) (direction : Nat)
  deriving DecidableEq, Repr

/-- The `config` object of lines 58–62. The header is the constant
`Content-Type: application/json`; `body = none` when `data` is `null`; the body is
kept as the object that `JSON.stringify` serialises. -/
structure Config where
  method : String
  body : Option MoveData
  deriving DecidableEq, Repr

/-- Observable actions, in program order. `setTimeout closure delay` is
`setTimeout(updateStatus, delay)` where `updateStatus` is the closure of the render
whose state values are `closure`. -/
inductive Effect where
  | alert
  | fetch (url : String) (config : Option Config)
  | setTimeout (closure : State) (delay : Nat)
  deriving DecidableEq, Repr

/-- How `await fetch(..)` and the following `await response.json()` end:
the fetch promise rejects, or it resolves with a response whose `ok` flag is
given and whose body parses to `some j` or fails to parse (`none`). -/
inductive FetchOutcome where
  | rejected
  | response (ok : Bool) (body : Option Json)
  deriving DecidableEq, Repr

/-- The fetch resolved and the body parsed as JSON. -/
def FetchOutcome.parsed : FetchOutcome → Bool
  | .response _ (some _) => true
  | _ => false

/-- The fetch resolved with `response.ok` and the body parsed as JSON. -/
def FetchOutcome.okParsed : FetchOutcome → Bool
  | .response true (some _) => true
  | _ => false

/-- What a call has done once it has settled: the React state, the effects it
issued and its return value. -/
structure Run (α : Type) where
  state : State
  effects : List Effect
  result : α

/-- An async call observed when it first gives control back: either it has
already returned, or it is suspended on a fetch and `resume net s` is what it
does once the fetch ends with `net` while the React state is `s`. -/
inductive Async (α : Type) where
  | returned (state : State) (effects : List Effect) (result : α)
  | awaiting (state : State) (effects : List Effect) (resume : FetchOutcome → State → Run α)

/-- Effects issued before the call first gives control back. -/
def Async.effects {α : Type} : Async α → List Effect
  | .returned _ e _ => e
  | .awaiting _ e _ => e

/-- Run a call to completion when nothing else touches the state while its
fetch is in flight. -/
def Async.run {α : Type} (a : Async α) (net : FetchOutcome) : Run α :=
  match a with
  | .returned s e r => { state := s, effects := e, result := r }
  | .awaiting s e k =>
      let r := k net s
      { state := r.state, effects := e ++ r.effects, result := r.result }

/-! ## The async functions (lines 24–90) -/

/-- Lines 50–80. -/
def apiCall (env : State) (endpoint : String) (method : String) (data : Option MoveData)
    (cur : State) : Async Json :=
  if env.isConnected = false ∧ endpoint ≠ "ping" then
    -- lines 52–53
    .returned cur [.alert] Json.null
  else
    -- line 56
    let s1 := if endpoint ≠ "ping" then { cur with loading := true } else cur
    -- lines 58–62
    let config : Config := { method := method, body := data }
    -- line 64
    .awaiting s1 [.fetch (apiUrl endpoint) (some config)] fun net s =>
      match net with
      | .response _ (some result) =>
          -- lines 68–72, then the `finally` of line 78
          { state := if endpoint ≠ "ping" then { s with loading := false } else s
            effects := if endpoint ≠ "status" ∧ endpoint ≠ "ping" then [.setTimeout env 100] else []
            result := result }
      | _ =>
          -- `catch`, lines 74–76, then the `finally` of line 78
          let s2 := { s with isConnected := false }
          { state := if endpoint ≠ "ping" then { s2 with loading := false } else s2
            effects := []
            result := Json.null }

/-- Lines 86–88: what `updateStatus` does with the value `apiCall` returned. -/
def applyStatus (r : Run Json) : Run Unit :=
  { state := if r.result.truthy then { r.state with status := r.result } else r.state
    effects := r.effects
    result := () }

/-- Lines 83–90. -/
def updateStatus (env : State) (cur : State) : Async Unit :=
  if env.isConnected then
    match apiCall env "status" "GET" none cur with
    | .returned s e newStatus =>
        let r := applyStatus { state := s, effects := e, result := newStatus }
        .returned r.state r.effects ()
    | .awaiting s e k => .awaiting s e fun net s1 => applyStatus (k net s1)
  else
    .returned cur [] ()

/-- A `testConnection` call observed when its promise resolves. `inFlight` is the
un-awaited `updateStatus()` of line 37 when that call is still waiting for its
fetch. -/
structure Probe where
  atReturn : Run Bool
  inFlight : Option (FetchOutcome → State → Run Unit)

/-- Lines 24–47. `startTime` and `endTime` are the two `Date.now()` readings and
`ping` is how the fetch of line 28 (and the `response.json()` of line 32) ends.
The wait for the ping is not split in two: `cur` is the state all the writes of
the call land on. -/
def testConnection (env : State) (startTime endTime : Int) (ping : FetchOutcome)
    (cur : State) : Probe :=
  -- line 25
  let s0 := { cur with loading := true }
  -- line 29
  let pingTime := endTime - startTime
  match ping with
  | .response true (some _) =>
      -- lines 33–34
      let s1 := { s0 with isConnected := true }
      let s2 := { s1 with lastPing := some pingTime }
      -- line 37: not awaited
      match updateStatus env s2 with
      | .returned s e _ =>
          { atReturn := { state := s, effects := .fetch pingUrl none :: e, result := true }
            inFlight := none }
      | .awaiting s e k =>
          { atReturn := { state := s, effects := .fetch pingUrl none :: e, result := true }
            inFlight := some k }
  | _ =>
      -- lines 43–46
      let s1 := { s0 with isConnected := false }
      let s2 := { s1 with lastPing := none }
      let s3 := { s2 with loading := false }
      { atReturn := { state := s3, effects := [.fetch pingUrl none], result := false }
        inFlight := none }

/-- The probe together with the status refresh it started, once that refresh
has settled with outcome `net`. -/
def Probe.settle (p : Probe) (net : FetchOutcome) : Run Bool :=
  match p.inFlight with
  | none => p.atReturn
  | some k =>
      let r := k net p.atReturn.state
      { state := r.state, effects := p.atReturn.effects ++ r.effects, result := p.atReturn.result }

/-! ## Motor actions (lines 93–115) -/

/-- Line 93. -/
def stopMotor (env cur : State) : Async Json := apiCall env "stop" "POST" none cur

/-- Line 94. -/
def homeMotor (env cur : State) : Async Json := apiCall env "home" "POST" none cur

/-- Lines 96–103. -/
def moveDistance (env cur : State) : Async Json :=
  let distance := env.settings.distance
  apiCall env "move" "POST"
    (some (.distance distance env.settings.speed (if distance ≥ 0 then 1 else 0))) cur

/-- Lines 105–109. -/
def moveForward (env cur : State) : Async Json :=
  apiCall env "move" "POST" (some (.continuous env.settings.speed 1)) cur

/-- Lines 111–115. -/
def moveBackward (env cur : State) : Async Json :=
  apiCall env "move" "POST" (some (.continuous env.settings.speed 0)) cur

/-! ## The speed field (lines 252–259) -/

/-- ECMAScript white space and line terminators, the characters `parseInt`
skips at the start of its argument. -/
def isWhiteSpace (c : Char) : Bool :=
  let n := c.toNat
  n = 9 || n = 10 || n = 11 || n = 12 || n = 13 || n = 32 || n = 160 || n = 5760 ||
    (8192 ≤ n && n ≤ 8202) || n = 8232 || n = 8233 || n = 8239 || n = 8287 || n = 12288 ||
    n = 65279

/-- Value of `c` as a digit in the given radix, if it is one. -/
def digitOf (radix : Nat) (c : Char) : Option Nat :=
  let n := c.toNat
  let v : Option Nat :=
    if 48 ≤ n ∧ n ≤ 57 then some (n - 48)
    else if 97 ≤ n ∧ n ≤ 122 then some (n - 87)
    else if 65 ≤ n ∧ n ≤ 90 then some (n - 55)
    else none
  v.filter fun d => d < radix

/-- Reads the longest run of radix digits at the front of the text; `acc` is
`none` until a first digit has been read. -/
def readDigits (radix : Nat) : List Char → Option Nat → Option Nat
  | [], acc => acc
  | c :: cs, acc =>
      match digitOf radix c with
      | some d => readDigits radix cs (some (acc.getD 0 * radix + d))
      | none => acc

/-- The builtin `parseInt(string)` of ECMAScript with no radix argument; `none`
is `NaN`. Leading white space is skipped, one sign is read, a `0x` / `0X` prefix
selects base 16, then the longest run of digits is the value. (The rounding of
integers beyond 2^53 to a double is not represented.) -/
def parseInt (value : String) : Option Int :=
  let s := value.toList.dropWhile isWhiteSpace
  let (negative, s1) : Bool × List Char :=
    match s with
    | '-' :: rest => (true, rest)
    | '+' :: rest => (false, rest)
    | _ => (false, s)
  let (radix, s2) : Nat × List Char :=
    match s1 with
    | '0' :: 'x' :: rest => (16, rest)
    | '0' :: 'X' :: rest => (16, rest)
    | _ => (10, s1)
  match readDigits radix s2 none with
  | some n => some (if negative then -(n : Int) else (n : Int))
  | none => none

/-- The JavaScript expression `x || 0` for a number `x`: `NaN` and `0` are falsy. -/
def orZero : Option Int → Int
  | some n => if n = 0 then 0 else n
  | none => 0

/-- Line 255, the `onChange` handler of the speed input: `value` is
`e.target.value`. The spread copies the settings of the render the handler
belongs to. -/
def onSpeedChange (env : State) (value : String) (cur : State) : State :=
  { cur with settings := { env.settings with speed := orZero (parseInt value) } }

/-- The `min` and `max` attributes of the speed input (lines 257–258). -/
def speedMin : Int := 50

/-- See `speedMin`. -/
def speedMax : Int := 1000

/-! ## The polling effect (lines 118–126) -/

/-- The browser interval table: `nextId` is the handle the next `setInterval`
returns (handles are positive), `active` the handles of the running intervals. -/
structure Timers where
  nextId : Nat
  active : List Nat
  deriving DecidableEq, Repr

/-- An interval table with nothing running. -/
def Timers.fresh : Timers := { nextId := 1, active := [] }

/-- Lines 119–122, the effect body: returns the local `interval` (`none` is
`undefined`) and the interval table after `setInterval(updateStatus, 1000)`. -/
def pollingEffect (isConnected : Bool) (t : Timers) : Option Nat × Timers :=
  if isConnected then
    (some t.nextId, { nextId := t.nextId + 1, active := t.active ++ [t.nextId] })
  else
    (none, t)

/-- Lines 123–125, the cleanup returned by the effect: `if (interval)` is false
for `undefined` and for `0`. -/
def pollingCleanup (interval : Option Nat) (t : Timers) : Timers :=
  match interval with
  | some id => if id ≠ 0 then { t with active := t.active.erase id } else t
  | none => t

/-- A mounted component after a commit: its state, the value of the dependency
array `[isConnected]` at the last run of the polling effect, the `interval`
captured by the cleanup that is pending, and the interval table. -/
structure Mounted where
  state : State
  deps : Bool
  interval : Option Nat
  timers : Timers
  deriving DecidableEq, Repr

/-- The component is either mounted or has been torn down. -/
inductive Component where
  | mounted (m : Mounted)
  | unmounted (timers : Timers)
  deriving DecidableEq, Repr

/-- First render and commit: the polling effect runs with the initial state. -/
def mount (t : Timers) : Component :=
  let r := pollingEffect initialState.isConnected t
  .mounted { state := initialState, deps := initialState.isConnected, interval := r.1, timers := r.2 }

/-- What can happen to a mounted component: a state update followed by the
re-render and commit it causes, or teardown. -/
inductive Event where
  | update (s : State)
  | unmount
  deriving DecidableEq, Repr

/-- React commit semantics for `useEffect(effect, [isConnected])`: when the
dependency changed, the pending cleanup runs and then the effect runs again;
on unmount the pending cleanup runs. A torn-down component ignores updates. -/
def Component.step : Component → Event → Component
  | .mounted m, .update s =>
      if s.isConnected = m.deps then
        .mounted { m with state := s }
      else
        let r := pollingEffect s.isConnected (pollingCleanup m.interval m.timers)
        .mounted { state := s, deps := s.isConnected, interval := r.1, timers := r.2 }
  | .mounted m, .unmount => .unmounted (pollingCleanup m.interval m.timers)
  | .unmounted t, _ => .unmounted t

/-- The component after a sequence of events, starting from a fresh page. -/
def lifecycle (events : List Event) : Component :=
  events.foldl Component.step (mount Timers.fresh)

/-! ## Sequences of user and timer actions -/

/-- The five command buttons. -/
inductive Command where
  | stop
  | home
  | moveDistance
  | moveForward
  | moveBackward
  deriving DecidableEq, Repr

/-- The handler behind each button. -/
def Command.handler : Command → State → State → Async Json
  | .stop => stopMotor
  | .home => homeMotor
  | .moveDistance => StepperController.moveDistance
  | .moveForward => StepperController.moveForward
  | .moveBackward => StepperController.moveBackward

/-- The closures of the `setTimeout(updateStatus, _)` calls among the effects. -/
def scheduledRefreshes : List Effect → List State
  | [] => []
  | .setTimeout closure _ :: es => closure :: scheduledRefreshes es
  | _ :: es => scheduledRefreshes es

/-- One action on the panel run without interruption, with the network
outcomes it meets.
* `probe`: the Tester Ping button (or the startup effect); `refresh` is
  how the status fetch started by line 37 ends, if one is started.
* `command`: a command button; `send` is how the command request ends and
  `refresh` how the refresh scheduled by line 69 ends, if one is scheduled.
* `poll`: a tick of the one second interval. -/
inductive Op where
  | probe (startTime endTime : Int) (ping refresh : FetchOutcome)
  | command (c : Command) (send refresh : FetchOutcome)
  | poll (net : FetchOutcome)
  deriving DecidableEq, Repr

/-- The urls of the fetches among the effects, in order. -/
def fetchedUrls : List Effect → List String
  | [] => []
  | .fetch url _ :: es => url :: fetchedUrls es
  | _ :: es => fetchedUrls es

/-- Whether a request that reached the network succeeded: the probe needs an
`ok` response with a JSON body, every other request a JSON body. -/
def succeeded (exchange : String × FetchOutcome) : Bool :=
  if exchange.1 = pingUrl then exchange.2.okParsed else exchange.2.parsed

/-! ## The event loop

JavaScript runs one callback at a time, but fetches and timers started by one
callback end while others have run in between. The loop below keeps the
suspended calls and the timers that have not fired as `Task`s and lets them end
in any order. -/

/-- State when the call first gives control back. -/
def Async.state {α : Type} : Async α → State
  | .returned s _ _ => s
  | .awaiting s _ _ => s

/-- Whether the call is suspended on a fetch. -/
def Async.suspended {α : Type} : Async α → Bool
  | .returned _ _ _ => false
  | .awaiting _ _ _ => true

/-- What a suspended call does when its fetch ends with `net` while the React
state is `s`; `none` for a call that had already returned. -/
def Async.resume {α : Type} (a : Async α) (net : FetchOutcome) (s : State) : Option (Run α) :=
  match a with
  | .returned _ _ _ => none
  | .awaiting _ _ k => some (k net s)

/-- Lines 29–46: `testConnection` from the moment the fetch of line 28 has
ended, with `s` the React state at that moment. The `fetch` itself was issued
before, so it is not among the effects here. -/
def testConnectionResume (env : State) (startTime endTime : Int) (ping : FetchOutcome)
    (s : State) : Probe :=
  -- line 29
  let pingTime := endTime - startTime
  match ping with
  | .response true (some _) =>
      -- lines 33–34
      let s1 := { s with isConnected := true }
      let s2 := { s1 with lastPing := some pingTime }
      -- line 37: not awaited
      match updateStatus env s2 with
      | .returned s3 e _ =>
          { atReturn := { state := s3, effects := e, result := true }, inFlight := none }
      | .awaiting s3 e k =>
          { atReturn := { state := s3, effects := e, result := true }, inFlight := some k }
  | _ =>
      -- lines 43–46
      let s1 := { s with isConnected := false }
      let s2 := { s1 with lastPing := none }
      let s3 := { s2 with loading := false }
      { atReturn := { state := s3, effects := [], result := false }, inFlight := none }

/-- The endpoint each command button posts to (lines 93–115). -/
def Command.endpoint : Command → String
  | .stop => "stop"
  | .home => "home"
  | .moveDistance => "move"
  | .moveForward => "move"
  | .moveBackward => "move"

/-- Work the event loop still holds. `env` is the render whose closure is
suspended or scheduled.
* `ping`: a `testConnection` waiting for the fetch of line 28;
* `command`: a command handler waiting for the fetch of line 64;
* `status`: an `updateStatus` waiting for the fetch of line 64;
* `refresh`: a `setTimeout(updateStatus, 100)` of line 69 that has not fired. -/
inductive Task where
  | ping (env : State) (startTime : Int)
  | command (env : State) (c : Command)
  | status (env : State)
  | refresh (closure : State)
  deriving DecidableEq, Repr

/-- What can happen next.
* `startProbe`: Tester Ping is pressed (or the startup effect runs): the
  `testConnection` of the current render starts;
* `press`: a command button is pressed: its handler of the current render runs;
* `tick`: the one second interval fires. The interval only exists while the
  flag is on and its closure reads the flag as on, so it runs `updateStatus`
  with the flag of the current state;
* `settle i endTime net`: the fetch of the task at position `i` ends with
  `net`; `endTime` is the `Date.now()` of line 29, read by a ping only;
* `fire i`: the timer at position `i` fires.
An event that does not apply (no such task, or a task of the other kind)
changes nothing. -/
inductive LoopEvent where
  | startProbe (startTime : Int)
  | press (c : Command)
  | tick
  | settle (i : Nat) (endTime : Int) (net : FetchOutcome)
  | fire (i : Nat)
  deriving DecidableEq, Repr

/-- The panel state, the pending tasks (oldest first), and the log of the
requests that have ended, each with its outcome, oldest first. -/
structure Loop where
  state : State
  tasks : List Task
  exchanges : List (String × FetchOutcome)
  deriving DecidableEq, Repr

/-- The loop at startup, before anything has run. -/
def Loop.initial : Loop := { state := initialState, tasks := [], exchanges := [] }

/-- One event. -/
def Loop.step (w : Loop) : LoopEvent → Loop
  | .startProbe startTime =>
      -- line 25, then the call waits at line 28
      { w with state := { w.state with loading := true }
               tasks := w.tasks ++ [.ping w.state startTime] }
  | .press c =>
      let a := c.handler w.state w.state
      { w with state := a.state
               tasks := w.tasks ++ (if a.suspended then [.command w.state c] else []) }
  | .tick =>
      let a := updateStatus w.state w.state
      { w with state := a.state
               tasks := w.tasks ++ (if a.suspended then [.status w.state] else []) }
  | .fire i =>
      match w.tasks[i]? with
      | some (.refresh closure) =>
          let a := updateStatus closure w.state
          { w with state := a.state
                   tasks := w.tasks.eraseIdx i ++
                     (if a.suspended then [.status closure] else []) }
      | _ => w
  | .settle i endTime net =>
      match w.tasks[i]? with
      | some (.ping env startTime) =>
          let p := testConnectionResume env startTime endTime net w.state
          { state := p.atReturn.state
            tasks := w.tasks.eraseIdx i ++ (if p.inFlight.isSome then [.status env] else [])
            exchanges := w.exchanges ++ [(pingUrl, net)] }
      | some (.command env c) =>
          match (c.handler env w.state).resume net w.state with
          | some r =>
              { state := r.state
                tasks := w.tasks.eraseIdx i ++ (scheduledRefreshes r.effects).map Task.refresh
                exchanges := w.exchanges ++ [(apiUrl c.endpoint, net)] }
          | none => w
      | some (.status env) =>
          match (updateStatus env w.state).resume net w.state with
          | some r =>
              { state := r.state
                tasks := w.tasks.eraseIdx i
                exchanges := w.exchanges ++ [(apiUrl "status", net)] }
          | none => w
      | _ => w

/-- The loop after a sequence of events from startup. -/
def Loop.run (events : List LoopEvent) : Loop := events.foldl Loop.step Loop.initial

/-- The events of an action that runs without interruption: it starts, its
request ends, and the refresh it scheduled fires and ends, before anything
else happens. With no other task pending, position 0 is the task the action
has just created. -/
def Op.events : Op → List LoopEvent
  | .probe startTime endTime ping refresh =>
      [.startProbe startTime, .settle 0 endTime ping, .settle 0 endTime refresh]
  | .command c send refresh => [.press c, .settle 0 0 send, .fire 0, .settle 0 0 refresh]
  | .poll net => [.tick, .settle 0 0 net]

/-! ## Auxiliary definitions for the statements -/

/-- Recognises a `setTimeout` among the effects. -/
def Effect.isTimeout : Effect → Bool
  | .setTimeout _ _ => true
  | _ => false

/-- A state as the panel shows it while connected: the initial state after a
probe that took 42 ms. -/
def connectedState : State := { initialState with isConnected := true, lastPing := some 42 }

/-- Lines 129–131, the probe started by the startup effect, which runs the
`testConnection` of the first render, here with a ping that takes 42 ms and is
answered `200 OK` with the JSON body `{}`. -/
def startupProbe : Probe :=
  testConnection initialState 1000 1042 (.response true (some (.obj []))) initialState

/-- A status body as the device reports it while moving. -/
def movingStatus : Json :=
  .obj [("isRunning", .bool true), ("direction", .num 1), ("speed", .num 300),
        ("position", .num 5), ("targetPosition", .num 10)]

/-- The lifecycle invariant: the dependency recorded by the effect is the
current flag, the interval table holds exactly the handle kept by the pending
cleanup, and such a handle exists exactly while connected. -/
def Component.Inv : Component → Prop
  | .mounted m =>
      m.deps = m.state.isConnected ∧
      ((m.state.isConnected = true ∧
          ∃ id, m.interval = some id ∧ id ≠ 0 ∧ m.timers.active = [id]) ∨
       (m.state.isConnected = false ∧ m.interval = none ∧ m.timers.active = [])) ∧
      m.timers.nextId ≠ 0
  | .unmounted t => t.active = []

/-- A run in which the refresh scheduled by Stop fires after a poll has failed:
the startup probe is answered after 42 ms, Stop is pressed and acknowledged,
the interval ticks and its status request meets a network error, then the
100 ms timer of Stop fires and its status request is answered. -/
def staleRefreshRun : List LoopEvent :=
  [.startProbe 1000, .settle 0 1042 (.response true (some (.obj []))),
   .press .stop, .settle 0 0 (.response true (some (.obj []))),
   .tick, .settle 1 0 .rejected,
   .fire 0, .settle 0 0 (.response true (some movingStatus))]

/-- Five actions run one after the other: a probe answered after 42 ms, Stop
acknowledged and refreshed, a poll that meets a network error, then Home and a
poll pressed while the flag is off. -/
def sampleOps : List Op :=
  [.probe 1000 1042 (.response true (some (.obj []))) .rejected,
   .command .stop (.response true (some (.obj []))) (.response true (some movingStatus)),
   .poll .rejected,
   .command .home (.response true (some (.obj []))) (.response true (some movingStatus)),
   .poll (.response true (some movingStatus))]

/-- Every pending closure other than a probe belongs to a render that was
connected. -/
def Task.closureConnected : Task → Bool
  | .ping _ _ => true
  | .command env _ => env.isConnected
  | .status env => env.isConnected
  | .refresh closure => closure.isConnected

/-- The flag agrees with the outcome of the last request that has ended, and is
off when none has. -/
def Loop.Inv (w : Loop) : Prop :=
  match w.exchanges.getLast? with
  | none => w.state.isConnected = false
  | some x => w.state.isConnected = succeeded x

/-! ## Shared lemmas -/

/-- Storing a fetched status does not touch the connection flag. -/
theorem applyStatus_isConnected (r : Run Json) :
    (applyStatus r).state.isConnected = r.state.isConnected := by
  unfold applyStatus
  split <;> rfl

/-- The status url is not the ping url. -/
theorem url_status_ne_ping : apiUrl "status" ≠ pingUrl := by decide

/-- Every command button posts to one of the command endpoints. -/
theorem handler_eq (c : Command) (env cur : State) :
    ∃ ep data, c.handler env cur = apiCall env ep "POST" data cur ∧
      ep ≠ "ping" ∧ ep ≠ "status" ∧ apiUrl ep ≠ pingUrl := by
  cases c
  · exact ⟨"stop", none, rfl, by decide, by decide, by decide⟩
  · exact ⟨"home", none, rfl, by decide, by decide, by decide⟩
  · exact ⟨"move", _, rfl, by decide, by decide, by decide⟩
  · exact ⟨"move", _, rfl, by decide, by decide, by decide⟩
  · exact ⟨"move", _, rfl, by decide, by decide, by decide⟩

/-- The approved `testConnection` is the resumption applied to the state after
line 25, with the ping fetch put in front of the effects. -/
theorem testConnection_eq_resume (env cur : State) (t0 t1 : Int) (ping : FetchOutcome) :
    (testConnection env t0 t1 ping cur).atReturn.state
      = (testConnectionResume env t0 t1 ping { cur with loading := true }).atReturn.state ∧
    (testConnection env t0 t1 ping cur).atReturn.effects
      = .fetch pingUrl none ::
        (testConnectionResume env t0 t1 ping { cur with loading := true }).atReturn.effects ∧
    (testConnection env t0 t1 ping cur).atReturn.result
      = (testConnectionResume env t0 t1 ping { cur with loading := true }).atReturn.result ∧
    (testConnection env t0 t1 ping cur).inFlight
      = (testConnectionResume env t0 t1 ping { cur with loading := true }).inFlight := by
  rcases ping with _ | ⟨_ | _, _ | j⟩ <;>
    simp [testConnection, testConnectionResume]
  cases hc : env.isConnected <;> simp [updateStatus, apiCall, hc]

/-- The status fetch a probe leaves in flight resumes as the suspended
`updateStatus` of the same render does. -/
theorem testConnectionResume_inFlight (env s s1 : State) (t0 t1 : Int)
    (ping net : FetchOutcome) (k : FetchOutcome → State → Run Unit)
    (h : (testConnectionResume env t0 t1 ping s).inFlight = some k) :
    (updateStatus env s1).resume net s1 = some (k net s1) := by
  rcases ping with _ | ⟨_ | _, _ | j⟩ <;> simp [testConnectionResume] at h
  cases hc : env.isConnected <;> simp [updateStatus, apiCall, hc, Async.resume] at h ⊢
  rw [← h]

/-- When the ping of a probe ends: the flag is its outcome, and a status fetch
is left in flight exactly when the ping succeeded and the closure was
connected. -/
theorem testConnectionResume_flag (env s : State) (t0 t1 : Int) (ping : FetchOutcome) :
    (testConnectionResume env t0 t1 ping s).atReturn.state.isConnected = ping.okParsed ∧
    (testConnectionResume env t0 t1 ping s).inFlight.isSome
      = (ping.okParsed && env.isConnected) := by
  cases hc : env.isConnected <;> rcases ping with _ | ⟨_ | _, _ | j⟩ <;>
    simp [testConnectionResume, updateStatus, apiCall, hc, FetchOutcome.okParsed]

/-- Every command button posts to its endpoint, which is neither `ping` nor
`status`. -/
theorem handler_endpoint (c : Command) (env cur : State) :
    ∃ data, c.handler env cur = apiCall env c.endpoint "POST" data cur ∧
      c.endpoint ≠ "ping" ∧ c.endpoint ≠ "status" ∧ apiUrl c.endpoint ≠ pingUrl := by
  cases c
  · exact ⟨none, rfl, by decide, by decide, by decide⟩
  · exact ⟨none, rfl, by decide, by decide, by decide⟩
  · exact ⟨_, rfl, by decide, by decide, by decide⟩
  · exact ⟨_, rfl, by decide, by decide, by decide⟩
  · exact ⟨_, rfl, by decide, by decide, by decide⟩

/-- A handler up to its fetch: it is suspended exactly when its closure is
connected, and has not touched the flag. -/
theorem handler_start (c : Command) (env cur : State) :
    (c.handler env cur).suspended = env.isConnected ∧
    (c.handler env cur).state.isConnected = cur.isConnected := by
  obtain ⟨data, he, h1, -, -⟩ := handler_endpoint c env cur
  cases hc : env.isConnected <;>
    simp [he, apiCall, hc, h1, Async.suspended, Async.state]

/-- A handler of a connected closure when its fetch ends. -/
theorem handler_resume (c : Command) (env cur s : State) (net : FetchOutcome)
    (h : env.isConnected = true) :
    ∃ r, (c.handler env cur).resume net s = some r ∧
      r.state.isConnected = (net.parsed && s.isConnected) ∧
      scheduledRefreshes r.effects = (if net.parsed then [env] else []) := by
  obtain ⟨data, he, h1, h2, -⟩ := handler_endpoint c env cur
  rcases net with _ | ⟨ok, _ | j⟩ <;>
    simp [he, apiCall, h, h1, h2, Async.resume, FetchOutcome.parsed, scheduledRefreshes]

/-- An `updateStatus` up to its fetch. -/
theorem updateStatus_start (env cur : State) :
    (updateStatus env cur).suspended = env.isConnected ∧
    (updateStatus env cur).state.isConnected = cur.isConnected := by
  cases hc : env.isConnected <;>
    simp [updateStatus, apiCall, hc, Async.suspended, Async.state]

/-- An `updateStatus` of a connected closure when its fetch ends. -/
theorem updateStatus_resume (env cur s : State) (net : FetchOutcome)
    (h : env.isConnected = true) :
    ∃ r, (updateStatus env cur).resume net s = some r ∧
      r.state.isConnected = (net.parsed && s.isConnected) := by
  rcases net with _ | ⟨ok, _ | j⟩ <;>
    simp [updateStatus, apiCall, h, Async.resume, FetchOutcome.parsed, applyStatus_isConnected]

/-- One event of the loop and the flag: the end of a ping sets it to the
outcome of the ping, the end of a command or status request turns it off on
failure and leaves it on success, and nothing else changes it. -/
theorem loop_step_flag (w : Loop) (e : LoopEvent)
    (hw : ∀ t ∈ w.tasks, t.closureConnected = true) :
    (w.step e).state.isConnected =
      match e with
      | .settle i _ net =>
          match w.tasks[i]? with
          | some (.ping _ _) => net.okParsed
          | some (.command _ _) => net.parsed && w.state.isConnected
          | some (.status _) => net.parsed && w.state.isConnected
          | _ => w.state.isConnected
      | _ => w.state.isConnected := by
  cases e with
  | startProbe t0 => simp [Loop.step]
  | press c => simp [Loop.step, (handler_start c w.state w.state).2]
  | tick => simp [Loop.step, (updateStatus_start w.state w.state).2]
  | fire i =>
    simp only [Loop.step]
    split
    · simp [(updateStatus_start _ w.state).2]
    · rfl
  | settle i t1 net =>
    simp only [Loop.step]
    cases ht : w.tasks[i]? with
    | none => simp
    | some t =>
      have hmem : t ∈ w.tasks := List.getElem?_mem ht
      have hc := hw t hmem
      cases t with
      | ping env t0 => simp [(testConnectionResume_flag env w.state t0 t1 net).1]
      | command env c =>
        simp only [Task.closureConnected] at hc
        obtain ⟨r, hr, hf, -⟩ := handler_resume c env w.state w.state net hc
        simp [hr, hf]
      | status env =>
        simp only [Task.closureConnected] at hc
        obtain ⟨r, hr, hf⟩ := updateStatus_resume env w.state w.state net hc
        simp [hr, hf]
      | refresh closure => simp

/-- Every event keeps the pending closures connected. -/
theorem loop_step_wf (w : Loop) (e : LoopEvent)
    (hw : ∀ t ∈ w.tasks, t.closureConnected = true) :
    ∀ t ∈ (w.step e).tasks, t.closureConnected = true := by
  cases e with
  | startProbe t0 =>
    intro t ht
    simp only [Loop.step, List.mem_append, List.mem_singleton] at ht
    rcases ht with ht | rfl
    · exact hw t ht
    · rfl
  | press c =>
    intro t ht
    simp only [Loop.step, List.mem_append, (handler_start c w.state w.state).1] at ht
    rcases ht with ht | ht
    · exact hw t ht
    · cases hc : w.state.isConnected <;> simp [hc] at ht
      subst ht
      simpa [Task.closureConnected] using hc
  | tick =>
    intro t ht
    simp only [Loop.step, List.mem_append, (updateStatus_start w.state w.state).1] at ht
    rcases ht with ht | ht
    · exact hw t ht
    · cases hc : w.state.isConnected <;> simp [hc] at ht
      subst ht
      simpa [Task.closureConnected] using hc
  | fire i =>
    intro t ht
    simp only [Loop.step] at ht
    split at ht
    · rename_i closure hi
      have hcl : closure.isConnected = true := hw _ (List.getElem?_mem hi)
      simp only [List.mem_append, (updateStatus_start closure w.state).1, hcl, if_true,
        List.mem_singleton] at ht
      rcases ht with ht | rfl
      · exact hw t (List.mem_of_mem_eraseIdx ht)
      · exact hcl
    · exact hw t ht
  | settle i t1 net =>
    intro t ht
    simp only [Loop.step] at ht
    cases hi : w.tasks[i]? with
    | none => rw [hi] at ht; exact hw t ht
    | some t' =>
      rw [hi] at ht
      have hc := hw t' (List.getElem?_mem hi)
      cases t' with
      | ping env t0 =>
        simp only [List.mem_append, (testConnectionResume_flag env w.state t0 t1 net).2] at ht
        rcases ht with ht | ht
        · exact hw t (List.mem_of_mem_eraseIdx ht)
        · cases he : env.isConnected <;> simp [he] at ht
          obtain ⟨-, rfl⟩ := ht
          simpa [Task.closureConnected] using he
      | command env c =>
        simp only [Task.closureConnected] at hc
        obtain ⟨r, hr, -, hs⟩ := handler_resume c env w.state w.state net hc
        simp only [hr, hs, List.mem_append, List.mem_map] at ht
        rcases ht with ht | ⟨cl, hcl, rfl⟩
        · exact hw t (List.mem_of_mem_eraseIdx ht)
        · cases hp : net.parsed <;> simp [hp] at hcl
          subst hcl
          simpa [Task.closureConnected] using hc
      | status env =>
        simp only [Task.closureConnected] at hc
        obtain ⟨r, hr, -⟩ := updateStatus_resume env w.state w.state net hc
        simp only [hr] at ht
        exact hw t (List.mem_of_mem_eraseIdx ht)
      | refresh closure => exact hw t ht

/-- In every run from startup the pending closures are connected. -/
theorem loop_run_wf (events : List LoopEvent) :
    ∀ t ∈ (Loop.run events).tasks, t.closureConnected = true := by
  unfold Loop.run
  have : ∀ (w : Loop), (∀ t ∈ w.tasks, t.closureConnected = true) →
      ∀ t ∈ (events.foldl Loop.step w).tasks, t.closureConnected = true := by
    induction events with
    | nil => intro w hw; simpa using hw
    | cons e es ih => intro w hw; exact ih _ (loop_step_wf w e hw)
  exact this Loop.initial (by simp [Loop.initial])

/-- An action that runs without interruption from a loop with nothing pending
leaves nothing pending and keeps `Loop.Inv`. -/
theorem op_events_inv (w : Loop) (op : Op) (ht : w.tasks = []) (h : w.Inv) :
    (op.events.foldl Loop.step w).tasks = [] ∧ (op.events.foldl Loop.step w).Inv := by
  obtain ⟨s, tasks, ex⟩ := w
  simp only at ht
  subst ht
  unfold Loop.Inv at h ⊢
  simp only at h
  cases op with
  | poll net =>
    cases hc : s.isConnected
    · simp [Op.events, Loop.step, updateStatus, hc, Async.suspended, Async.state]
      simpa [hc] using h
    · rcases net with _ | ⟨ok, _ | j⟩ <;>
        simp [Op.events, Loop.step, updateStatus, apiCall, hc, Async.suspended, Async.state,
          Async.resume, applyStatus_isConnected, succeeded, url_status_ne_ping,
          FetchOutcome.parsed]
  | command c send refresh =>
    have u1 : apiUrl "stop" ≠ pingUrl := by decide
    have u2 : apiUrl "home" ≠ pingUrl := by decide
    have u3 : apiUrl "move" ≠ pingUrl := by decide
    cases hc : s.isConnected
    · cases c <;>
        simp [Op.events, Loop.step, Command.handler, stopMotor, homeMotor, moveDistance,
          moveForward, moveBackward, apiCall, hc, Async.suspended, Async.state] <;>
        simpa [hc] using h
    · cases c <;> rcases send with _ | ⟨ok, _ | j⟩ <;> rcases refresh with _ | ⟨ok2, _ | j2⟩ <;>
        simp [Op.events, Loop.step, Command.handler, Command.endpoint, stopMotor, homeMotor,
          moveDistance, moveForward, moveBackward, updateStatus, apiCall, hc, Async.suspended,
          Async.state, Async.resume, applyStatus_isConnected, succeeded, url_status_ne_ping,
          u1, u2, u3, FetchOutcome.parsed, scheduledRefreshes]
  | probe t0 t1 ping refresh =>
    have f1 := testConnectionResume_flag s { s with loading := true } t0 t1 ping
    cases hc : s.isConnected
    · rcases ping with _ | ⟨_ | _, _ | j⟩ <;>
        simp [Op.events, Loop.step, testConnectionResume, updateStatus, hc,
          succeeded, FetchOutcome.okParsed]
    · cases hp : ping.okParsed
      · rcases ping with _ | ⟨_ | _, _ | j⟩ <;> simp [FetchOutcome.okParsed] at hp <;>
          simp [Op.events, Loop.step, testConnectionResume, succeeded, FetchOutcome.okParsed]
      · rcases ping with _ | ⟨_ | _, _ | j⟩ <;> simp [FetchOutcome.okParsed] at hp
        obtain ⟨r, hr, hf⟩ := updateStatus_resume s
          { s with loading := true, isConnected := true, lastPing := some (t1 - t0) }
          { s with loading := true, isConnected := true, lastPing := some (t1 - t0) } refresh hc
        simp [Op.events, Loop.step, testConnectionResume, updateStatus, apiCall, hc,
          Async.resume, applyStatus_isConnected, succeeded, url_status_ne_ping] 
        rcases refresh with _ | ⟨ok2, _ | j2⟩ <;>
          simp [applyStatus_isConnected, FetchOutcome.parsed, succeeded, url_status_ne_ping]

/-- Actions that run one after the other, each without interruption, leave
nothing pending and keep `Loop.Inv`. -/
theorem ops_events_inv (ops : List Op) (w : Loop) (ht : w.tasks = []) (h : w.Inv) :
    ((ops.flatMap Op.events).foldl Loop.step w).tasks = [] ∧
    ((ops.flatMap Op.events).foldl Loop.step w).Inv := by
  induction ops generalizing w with
  | nil => exact ⟨ht, h⟩
  | cons op rest ih =>
    have h1 := op_events_inv w op ht h
    simp only [List.flatMap_cons, List.foldl_append]
    exact ih _ h1.1 h1.2


/-- The first commit establishes `Component.Inv`. -/
theorem mount_inv : (mount Timers.fresh).Inv := by
  simp [mount, Timers.fresh, pollingEffect, initialState, Component.Inv]

/-- Every commit and the teardown preserve `Component.Inv`. -/
theorem component_step_inv (c : Component) (e : Event) (h : c.Inv) : (c.step e).Inv := by
  cases c with
  | unmounted t => cases e <;> simpa [Component.step, Component.Inv] using h
  | mounted m =>
    obtain ⟨hd, hcase, hn⟩ := h
    cases e with
    | unmount =>
      rcases hcase with ⟨_, id, hi, hid, ha⟩ | ⟨_, hi, ha⟩
      · simp [Component.step, Component.Inv, pollingCleanup, hi, ha, hid]
      · simp [Component.step, Component.Inv, pollingCleanup, hi, ha]
    | update s =>
      by_cases hs : s.isConnected = m.deps
      · have hstep : (Component.mounted m).step (.update s)
            = .mounted { m with state := s } := by
          simp [Component.step, hs]
        rw [hstep]
        refine ⟨hs.symm, ?_, hn⟩
        show (s.isConnected = true ∧ _) ∨ (s.isConnected = false ∧ _)
        rw [hs, hd]
        exact hcase
      · simp only [Component.step, hs, if_false, Component.Inv]
        rw [hd] at hs
        rcases hcase with ⟨hc, id, hi, hid, ha⟩ | ⟨hc, hi, ha⟩
        · have hs2 : s.isConnected = false := by
            cases h2 : s.isConnected <;> simp_all
          simp [pollingEffect, pollingCleanup, hs2, hi, ha, hid, hn]
        · have hs2 : s.isConnected = true := by
            cases h2 : s.isConnected <;> simp_all
          simp [pollingEffect, pollingCleanup, hs2, hi, ha, hn]

/-- Every sequence of events preserves `Component.Inv`. -/
theorem component_foldl_inv (events : List Event) (c : Component) (h : c.Inv) :
    (events.foldl Component.step c).Inv := by
  induction events generalizing c with
  | nil => simpa using h
  | cons e es ih => exact ih _ (component_step_inv c e h)

/-! ## The claims -/

/-- C1: when the closure reads `isConnected = false`, `apiCall` on any endpoint
other than `ping` (whatever the method and body, so for each of the five
command handlers too) returns `null`, its only effect is the alert, so it
issues no fetch and schedules no refresh, and it leaves the whole state
(`isConnected`, `lastPing`, `status`, `settings`, `loading`) as it was. -/
theorem apiCall_rejects_when_disconnected (env cur : State) (endpoint method : String)
    (data : Option MoveData) (net : FetchOutcome)
    (hconn : env.isConnected = false) (hep : endpoint ≠ "ping") :
    ((apiCall env endpoint method data cur).run net).result = Json.null ∧
    ((apiCall env endpoint method data cur).run net).state = cur ∧
    ((apiCall env endpoint method data cur).run net).effects = [.alert] ∧
    fetchedUrls ((apiCall env endpoint method data cur).run net).effects = [] ∧
    ((apiCall env endpoint method data cur).run net).effects.filter Effect.isTimeout = [] ∧
    (∀ c : Command,
      ((c.handler env cur).run net).result = Json.null ∧
      ((c.handler env cur).run net).state = cur ∧
      ((c.handler env cur).run net).effects = [.alert]) := by
  refine ⟨?_, ?_, ?_, ?_, ?_, ?_⟩
  · simp [apiCall, Async.run, hconn, hep]
  · simp [apiCall, Async.run, hconn, hep]
  · simp [apiCall, Async.run, hconn, hep]
  · simp [apiCall, Async.run, hconn, hep, fetchedUrls]
  · simp [apiCall, Async.run, hconn, hep, Effect.isTimeout]
  · intro c
    obtain ⟨ep, d, he, h1, -, -⟩ := handler_eq c env cur
    simp [he, apiCall, Async.run, hconn, h1]

/-- Witness for C1: the Stop button pressed in the initial, disconnected state. -/
theorem apiCall_rejects_when_disconnected_witness :
    ((apiCall initialState "stop" "POST" none initialState).run .rejected).result = Json.null ∧
    ((apiCall initialState "stop" "POST" none initialState).run .rejected).state
      = initialState ∧
    fetchedUrls ((apiCall initialState "stop" "POST" none initialState).run .rejected).effects
      = [] :=
  have h := apiCall_rejects_when_disconnected initialState initialState "stop" "POST" none
    .rejected rfl (by decide)
  ⟨h.1, h.2.1, h.2.2.2.1⟩

/-- C2: `moveDistance` passes to `apiCall`, for the `move` endpoint and the
`POST` method, a body whose `distance` and `speed` are the settings values
unchanged and whose `direction` is 1 when `distance >= 0` and 0 otherwise; when
connected that body is what the one request it issues carries. -/
theorem moveDistance_request (env cur : State) :
    (0 ≤ env.settings.distance →
      moveDistance env cur = apiCall env "move" "POST"
        (some (.distance env.settings.distance env.settings.speed 1)) cur) ∧
    (env.settings.distance < 0 →
      moveDistance env cur = apiCall env "move" "POST"
        (some (.distance env.settings.distance env.settings.speed 0)) cur) ∧
    (env.isConnected = true → 0 ≤ env.settings.distance →
      (moveDistance env cur).effects =
        [.fetch (apiUrl "move")
          (some { method := "POST"
                  body := some (.distance env.settings.distance env.settings.speed 1) })]) ∧
    (env.isConnected = true → env.settings.distance < 0 →
      (moveDistance env cur).effects =
        [.fetch (apiUrl "move")
          (some { method := "POST"
                  body := some (.distance env.settings.distance env.settings.speed 0) })]) := by
  refine ⟨?_, ?_, ?_, ?_⟩
  · intro h
    simp [moveDistance, h]
  · intro h
    simp [moveDistance, not_le.mpr h]
  · intro hc h
    simp [moveDistance, apiCall, hc, h, Async.effects]
  · intro hc h
    simp [moveDistance, apiCall, hc, not_le.mpr h, Async.effects]

/-- Witness for C2: distances -5, 5 and 0 at speed 300 give directions 0, 1 and 1. -/
theorem moveDistance_request_witness :
    (moveDistance { connectedState with settings := { speed := 300, distance := -5 } }
        connectedState).effects
      = [.fetch (apiUrl "move")
          (some { method := "POST", body := some (.distance (-5) 300 0) })] ∧
    (moveDistance { connectedState with settings := { speed := 300, distance := 5 } }
        connectedState).effects
      = [.fetch (apiUrl "move")
          (some { method := "POST", body := some (.distance 5 300 1) })] ∧
    (moveDistance { connectedState with settings := { speed := 300, distance := 0 } }
        connectedState).effects
      = [.fetch (apiUrl "move")
          (some { method := "POST", body := some (.distance 0 300 1) })] :=
  ⟨(moveDistance_request { connectedState with settings := { speed := 300, distance := -5 } }
      connectedState).2.2.2 rfl (by decide),
   (moveDistance_request { connectedState with settings := { speed := 300, distance := 5 } }
      connectedState).2.2.1 rfl (by decide),
   (moveDistance_request { connectedState with settings := { speed := 300, distance := 0 } }
      connectedState).2.2.1 rfl (by decide)⟩

/-- C3: whatever the state before, when `testConnection` returns the flag is
on, `lastPing` is the elapsed time `endTime - startTime` and the result is
`true` if the ping resolved with an `ok` response whose body parsed as JSON;
for every other outcome the flag is off, `lastPing` is `null` and the result is
`false`. -/
theorem testConnection_outcome (env cur : State) (startTime endTime : Int)
    (ping : FetchOutcome) :
    (∀ j, ping = .response true (some j) →
      (testConnection env startTime endTime ping cur).atReturn.state.isConnected = true ∧
      (testConnection env startTime endTime ping cur).atReturn.state.lastPing
        = some (endTime - startTime) ∧
      (testConnection env startTime endTime ping cur).atReturn.result = true) ∧
    ((∀ j, ping ≠ .response true (some j)) →
      (testConnection env startTime endTime ping cur).atReturn.state.isConnected = false ∧
      (testConnection env startTime endTime ping cur).atReturn.state.lastPing = none ∧
      (testConnection env startTime endTime ping cur).atReturn.result = false) := by
  constructor
  · rintro j rfl
    cases hc : env.isConnected <;>
      simp [testConnection, updateStatus, apiCall, hc]
  · intro h
    rcases ping with _ | ⟨ok, body⟩
    · simp [testConnection]
    · cases ok <;> cases body <;> simp [testConnection] at h ⊢

/-- Witness for C3: a ping answered after 42 ms, and a ping that meets a network
error, both from the connected state. -/
theorem testConnection_outcome_witness :
    ((testConnection connectedState 1000 1042 (.response true (some (.obj [])))
        connectedState).atReturn.state.isConnected = true ∧
      (testConnection connectedState 1000 1042 (.response true (some (.obj [])))
        connectedState).atReturn.state.lastPing = some 42 ∧
      (testConnection connectedState 1000 1042 (.response true (some (.obj [])))
        connectedState).atReturn.result = true) ∧
    ((testConnection connectedState 1000 1042 .rejected connectedState).atReturn.state.isConnected
        = false ∧
      (testConnection connectedState 1000 1042 .rejected connectedState).atReturn.state.lastPing
        = none ∧
      (testConnection connectedState 1000 1042 .rejected connectedState).atReturn.result
        = false) :=
  ⟨(testConnection_outcome connectedState connectedState 1000 1042
      (.response true (some (.obj [])))).1 (.obj []) rfl,
   (testConnection_outcome connectedState connectedState 1000 1042 .rejected).2
      (fun _ h => FetchOutcome.noConfusion h)⟩

/-- C4, as stated, fails: the startup probe succeeds, Stop is acknowledged and
schedules its refresh, a poll then meets a network error and turns the flag
off, and the refresh of Stop, whose closure still reads the flag as on, fires
and fetches the status successfully. The last request that reached the network
succeeded, its answer is stored, and the flag is off. -/
theorem stale_refresh_leaves_flag_off :
    (Loop.run staleRefreshRun).exchanges.getLast?
      = some (apiUrl "status", .response true (some movingStatus)) ∧
    succeeded (apiUrl "status", .response true (some movingStatus)) = true ∧
    (Loop.run staleRefreshRun).state.status = movingStatus ∧
    (Loop.run staleRefreshRun).state.isConnected = false := by
  decide

/-- C4, amended. For actions that run one after the other, each finished
together with the refresh it started before the next begins, nothing is left
pending and the flag equals the outcome of the last request that reached the
network (a probe succeeds on an `ok` response with a JSON body, any other
request on a JSON body), and is off while none has. Under every interleaving of
actions, fetches and timers: the end of a ping sets the flag to the outcome of
the ping, the end of a command or status request turns it off on failure and
leaves it as it was on success, and no other event changes it; so the flag
goes from off to on only when the ping of a probe succeeds. -/
theorem connected_follows_requests (ops : List Op) (events : List LoopEvent) (e : LoopEvent) :
    ((Loop.run (ops.flatMap Op.events)).tasks = [] ∧
      match (Loop.run (ops.flatMap Op.events)).exchanges.getLast? with
      | none => (Loop.run (ops.flatMap Op.events)).state.isConnected = false
      | some x => (Loop.run (ops.flatMap Op.events)).state.isConnected = succeeded x) ∧
    (((Loop.run events).step e).state.isConnected =
      match e with
      | .settle i _ net =>
          match (Loop.run events).tasks[i]? with
          | some (.ping _ _) => net.okParsed
          | some (.command _ _) => net.parsed && (Loop.run events).state.isConnected
          | some (.status _) => net.parsed && (Loop.run events).state.isConnected
          | _ => (Loop.run events).state.isConnected
      | _ => (Loop.run events).state.isConnected) ∧
    ((Loop.run events).state.isConnected = false →
      ((Loop.run events).step e).state.isConnected = true →
      ∃ i endTime net env startTime, e = .settle i endTime net ∧
        (Loop.run events).tasks[i]? = some (.ping env startTime) ∧ net.okParsed = true) := by
  have hlaw := loop_step_flag (Loop.run events) e (loop_run_wf events)
  refine ⟨?_, hlaw, ?_⟩
  · exact ops_events_inv ops Loop.initial rfl
      (by simp [Loop.Inv, Loop.initial, initialState])
  · intro hoff hon
    rw [hon] at hlaw
    cases e with
    | settle i t1 net =>
      simp only at hlaw
      cases ht : (Loop.run events).tasks[i]? with
      | none => simp [ht, hoff] at hlaw
      | some t =>
        cases t with
        | ping env t0 =>
          simp only [ht] at hlaw
          exact ⟨i, t1, net, env, t0, rfl, ht, hlaw.symm⟩
        | command env c => simp [ht, hoff] at hlaw
        | status env => simp [ht, hoff] at hlaw
        | refresh closure => simp [ht, hoff] at hlaw
    | startProbe t0 => simp [hoff] at hlaw
    | press c => simp [hoff] at hlaw
    | tick => simp [hoff] at hlaw
    | fire i => simp [hoff] at hlaw

/-- Witness for the amended C4: a probe, Stop, a failing poll, Home and a poll,
one after the other, end with the flag off; and in the run where the refresh of
Stop fires late, the end of its successful status request leaves the flag as it
was. -/
theorem connected_follows_requests_witness :
    (Loop.run (sampleOps.flatMap Op.events)).state.isConnected = false ∧
    ((Loop.run (staleRefreshRun.take 7)).step
        (.settle 0 0 (.response true (some movingStatus)))).state.isConnected
      = (Loop.run (staleRefreshRun.take 7)).state.isConnected :=
  ⟨(connected_follows_requests sampleOps [] .tick).1.2,
   (connected_follows_requests [] (staleRefreshRun.take 7)
      (.settle 0 0 (.response true (some movingStatus)))).2.1⟩

/-- C5: for a command endpoint (neither `status` nor `ping`) called by a
connected closure, a send that succeeds schedules exactly one
`setTimeout(updateStatus, 100)`, and the call itself issues only the command
request and leaves `status` alone, so the refresh is not run inside the call; a
send that fails schedules nothing, and neither does a call rejected for lack
of connection, nor any `status` or `ping` call. -/
theorem apiCall_refresh_scheduling (env cur : State) (endpoint method : String)
    (data : Option MoveData) (net : FetchOutcome) :
    (endpoint ≠ "status" → endpoint ≠ "ping" → env.isConnected = true → net.parsed = true →
      ((apiCall env endpoint method data cur).run net).effects.filter Effect.isTimeout
        = [.setTimeout env 100] ∧
      fetchedUrls ((apiCall env endpoint method data cur).run net).effects = [apiUrl endpoint] ∧
      ((apiCall env endpoint method data cur).run net).state.status = cur.status) ∧
    (env.isConnected = true → net.parsed = false →
      ((apiCall env endpoint method data cur).run net).effects.filter Effect.isTimeout = []) ∧
    (endpoint ≠ "ping" → env.isConnected = false →
      ((apiCall env endpoint method data cur).run net).effects.filter Effect.isTimeout = []) ∧
    (endpoint = "status" ∨ endpoint = "ping" →
      ((apiCall env endpoint method data cur).run net).effects.filter Effect.isTimeout = []) := by
  refine ⟨?_, ?_, ?_, ?_⟩
  · intro h1 h2 hc hn
    rcases net with _ | ⟨ok, _ | j⟩ <;> simp [FetchOutcome.parsed] at hn
    by_cases hl : cur.loading <;>
      simp [apiCall, Async.run, hc, h1, h2, Effect.isTimeout, fetchedUrls]
  · intro hc hn
    rcases net with _ | ⟨ok, _ | j⟩ <;> simp [FetchOutcome.parsed] at hn <;>
      simp [apiCall, Async.run, hc, Effect.isTimeout]
  · intro h2 hc
    simp [apiCall, Async.run, hc, h2, Effect.isTimeout]
  · intro h
    rcases h with rfl | rfl
    · cases hc : env.isConnected <;> rcases net with _ | ⟨ok, _ | j⟩ <;>
        simp [apiCall, Async.run, hc, Effect.isTimeout]
    · rcases net with _ | ⟨ok, _ | j⟩ <;>
        simp [apiCall, Async.run, Effect.isTimeout]

/-- Witness for C5: Stop, sent while connected and acknowledged. -/
theorem apiCall_refresh_scheduling_witness :
    ((apiCall connectedState "stop" "POST" none connectedState).run
        (.response true (some (.obj [])))).effects.filter Effect.isTimeout
      = [.setTimeout connectedState 100] ∧
    fetchedUrls ((apiCall connectedState "stop" "POST" none connectedState).run
        (.response true (some (.obj [])))).effects = [apiUrl "stop"] ∧
    ((apiCall connectedState "stop" "POST" none connectedState).run
        (.response true (some (.obj [])))).state.status = connectedState.status :=
  (apiCall_refresh_scheduling connectedState connectedState "stop" "POST" none
    (.response true (some (.obj [])))).1 (by decide) (by decide) rfl rfl

/-- C6, as stated, fails: while connected, a status fetch that succeeds with the
JSON body `null` reaches the network and leaves the flag on, but the stored
status does not become the fetched value. -/
theorem updateStatus_falsy_body_not_stored :
    fetchedUrls ((updateStatus connectedState connectedState).run
        (.response true (some Json.null))).effects = [apiUrl "status"] ∧
    (FetchOutcome.response true (some Json.null)).parsed = true ∧
    ((updateStatus connectedState connectedState).run
        (.response true (some Json.null))).state.isConnected = true ∧
    ((updateStatus connectedState connectedState).run
        (.response true (some Json.null))).state.status ≠ Json.null := by
  decide

/-- C6, amended: with a closure that reads `isConnected = false`, `updateStatus`
issues no request and changes nothing; with a connected closure and a fetch
that resolves with a JSON body, `status` becomes exactly that body when it is
truthy (every object and array is) and stays as it was when it is falsy, and
the flag is left as it was; with a connected closure and a fetch that fails,
`status` stays exactly as it was and the flag goes off. -/
theorem updateStatus_effect (env cur : State) (net : FetchOutcome) :
    (env.isConnected = false →
      ((updateStatus env cur).run net).state = cur ∧
      ((updateStatus env cur).run net).effects = []) ∧
    (env.isConnected = true → ∀ ok j, net = .response ok (some j) →
      ((updateStatus env cur).run net).state.status = (if j.truthy then j else cur.status) ∧
      ((updateStatus env cur).run net).state.isConnected = cur.isConnected ∧
      fetchedUrls ((updateStatus env cur).run net).effects = [apiUrl "status"]) ∧
    (env.isConnected = true → net.parsed = false →
      ((updateStatus env cur).run net).state.status = cur.status ∧
      ((updateStatus env cur).run net).state.isConnected = false) := by
  refine ⟨?_, ?_, ?_⟩
  · intro hc
    simp [updateStatus, Async.run, hc]
  · rintro hc ok j rfl
    cases ht : j.truthy <;>
      simp [updateStatus, apiCall, applyStatus, Async.run, hc, ht, fetchedUrls]
  · intro hc hn
    rcases net with _ | ⟨ok, _ | j⟩ <;> simp [FetchOutcome.parsed] at hn <;>
      simp [updateStatus, apiCall, applyStatus, Async.run, hc, Json.truthy, Json.null]

/-- Witness for the amended C6: a poll that fetches a status object while
connected stores it whole, and a poll that meets a network error keeps the old
status and turns the flag off. -/
theorem updateStatus_effect_witness :
    (((updateStatus connectedState connectedState).run
        (.response true (some movingStatus))).state.status = movingStatus ∧
      ((updateStatus connectedState connectedState).run
        (.response true (some movingStatus))).state.isConnected = true) ∧
    (((updateStatus connectedState connectedState).run .rejected).state.status
        = connectedState.status ∧
      ((updateStatus connectedState connectedState).run .rejected).state.isConnected
        = false) :=
  ⟨⟨((updateStatus_effect connectedState connectedState
        (.response true (some movingStatus))).2.1 rfl true movingStatus rfl).1,
    ((updateStatus_effect connectedState connectedState
        (.response true (some movingStatus))).2.1 rfl true movingStatus rfl).2.1⟩,
   (updateStatus_effect connectedState connectedState .rejected).2.2 rfl rfl⟩

/-- C7 at the failing input: the startup probe runs the `testConnection` of the
first render, whose `updateStatus` reads `isConnected = false`. The ping
succeeds and the flag goes on, yet the only request issued is the ping, no
status fetch is in flight, and the stored status is still the initial one
whatever the device would have answered. The same probe run by a render that
is already connected does issue the status fetch and stores its answer. -/
theorem startup_probe_skips_refresh :
    startupProbe.atReturn.result = true ∧
    startupProbe.atReturn.state.isConnected = true ∧
    startupProbe.inFlight.isNone = true ∧
    fetchedUrls (startupProbe.settle (.response true (some movingStatus))).effects = [pingUrl] ∧
    (startupProbe.settle (.response true (some movingStatus))).state.status
      = initialState.status ∧
    (startupProbe.settle (.response true (some movingStatus))).state.status ≠ movingStatus ∧
    fetchedUrls ((testConnection connectedState 1000 1042 (.response true (some (.obj [])))
        connectedState).settle (.response true (some movingStatus))).effects
      = [pingUrl, apiUrl "status"] ∧
    ((testConnection connectedState 1000 1042 (.response true (some (.obj [])))
        connectedState).settle (.response true (some movingStatus))).state.status
      = movingStatus := by
  decide

/-- C8 at the failing input: typing `5` into the speed field stores speed 5,
clearing the field stores 0, both outside the range 50 to 1000 declared on the
input, and the move requests sent afterwards carry that speed. -/
theorem speed_edit_leaves_range :
    (onSpeedChange connectedState "5" connectedState).settings.speed = 5 ∧
    (onSpeedChange connectedState "" connectedState).settings.speed = 0 ∧
    ¬ (speedMin ≤ (onSpeedChange connectedState "5" connectedState).settings.speed ∧
       (onSpeedChange connectedState "5" connectedState).settings.speed ≤ speedMax) ∧
    (moveDistance (onSpeedChange connectedState "5" connectedState)
        (onSpeedChange connectedState "5" connectedState)).effects
      = [.fetch (apiUrl "move")
          (some { method := "POST", body := some (.distance 10 5 1) })] ∧
    (moveForward (onSpeedChange connectedState "5" connectedState)
        (onSpeedChange connectedState "5" connectedState)).effects
      = [.fetch (apiUrl "move")
          (some { method := "POST", body := some (.continuous 5 1) })] := by
  decide

/-- C9: after every sequence of state updates, each followed by its commit,
and teardowns, starting from a page with no interval running: while the
component is mounted a polling handle is held exactly when `isConnected` is
true and the running intervals are exactly that handle (one when connected,
none when disconnected); after teardown no interval is running. -/
theorem polling_timer_iff_connected (events : List Event) :
    match lifecycle events with
    | .mounted m =>
        m.interval.isSome = m.state.isConnected ∧ m.timers.active = m.interval.toList
    | .unmounted t => t.active = [] := by
  have h := component_foldl_inv events _ mount_inv
  unfold lifecycle
  generalize events.foldl Component.step (mount Timers.fresh) = c at h
  cases c with
  | unmounted t => exact h
  | mounted m =>
    obtain ⟨_, hcase, _⟩ := h
    rcases hcase with ⟨hc, id, hi, _, ha⟩ | ⟨hc, hi, ha⟩
    · simp [hc, hi, ha]
    · simp [hc, hi, ha]

/-- C10: whatever the closure, state, endpoint, method, body and network
outcome, `apiCall` leaves `lastPing`, `status` and `settings` as they were and
never turns the flag from off to on; after a transport failure of a command
or of a poll sent by a connected closure the flag is off and `lastPing` still
holds its former value. -/
theorem apiCall_frame (env cur : State) (endpoint method : String)
    (data : Option MoveData) (net : FetchOutcome) :
    ((apiCall env endpoint method data cur).run net).state.lastPing = cur.lastPing ∧
    ((apiCall env endpoint method data cur).run net).state.status = cur.status ∧
    ((apiCall env endpoint method data cur).run net).state.settings = cur.settings ∧
    (((apiCall env endpoint method data cur).run net).state.isConnected = true →
      cur.isConnected = true) ∧
    (env.isConnected = true → net.parsed = false →
      ((apiCall env endpoint method data cur).run net).state.isConnected = false ∧
      ((apiCall env endpoint method data cur).run net).state.lastPing = cur.lastPing ∧
      ((updateStatus env cur).run net).state.isConnected = false ∧
      ((updateStatus env cur).run net).state.lastPing = cur.lastPing) := by
  have key : ∀ ep : String,
      ((apiCall env ep method data cur).run net).state.lastPing = cur.lastPing ∧
      ((apiCall env ep method data cur).run net).state.status = cur.status ∧
      ((apiCall env ep method data cur).run net).state.settings = cur.settings ∧
      (((apiCall env ep method data cur).run net).state.isConnected = true →
        cur.isConnected = true) := by
    intro ep
    by_cases hp : ep = "ping" <;> cases hc : env.isConnected <;>
      rcases net with _ | ⟨ok, _ | j⟩ <;>
      simp [apiCall, Async.run, hc, hp]
  obtain ⟨k1, k2, k3, k4⟩ := key endpoint
  refine ⟨k1, k2, k3, k4, ?_⟩
  intro hc hn
  rcases net with _ | ⟨ok, _ | j⟩ <;> simp [FetchOutcome.parsed] at hn <;>
    by_cases hp : endpoint = "ping" <;>
    simp [updateStatus, apiCall, applyStatus, Async.run, hc, hp, Json.truthy, Json.null]

/-- Witness for C10: Stop meets a network error after a probe that measured
42 ms; the flag goes off and `lastPing` is still 42. -/
theorem apiCall_frame_witness :
    ((apiCall connectedState "stop" "POST" none connectedState).run .rejected).state.isConnected
      = false ∧
    ((apiCall connectedState "stop" "POST" none connectedState).run .rejected).state.lastPing
      = some 42 :=
  have h := (apiCall_frame connectedState connectedState "stop" "POST" none .rejected).2.2.2.2
    rfl rfl
  ⟨h.1, h.2.1⟩

end StepperController
